import Mathlib

/-!
Verification of the concurrency primitives of the Golang-Concurrency
repository: the bounded blocking queue (`Channel`, in
channel/examples/custom_channel and its Send/Receive methods), the
topic broker (`Publisher`, in channel/examples/pubsub), and the state
monitor (`Mutex`, in sync/mutex/custom_mutex).

Each Go method that runs under the channel lock is embedded as a step
function on an explicit state; blocking (`cond.Wait`, a full Go channel
buffer, an unserviced monitor request) is represented by a step that
leaves the control state in its waiting point, or by `Option` results
where a big-step view is used.
-/

namespace GoConc

/-! ## Bounded blocking queue (`Channel[G]`)

`store` is the `container/list` list (front = head of the Lean list,
`PushBack` = append), `capacity` is the Go `int` field (it may be
negative: the constructor does not validate), `close` is the closed
flag.  `cond.Broadcast` has no effect on this state; each step reports
whether the code segment it models issued a broadcast. -/

structure Channel (G : Type) where
  store : List G
  capacity : Int
  close : Bool
deriving DecidableEq, Repr

/-- `NewChannel` (constructor.go): empty list, the given capacity
unchecked, not closed. -/
def NewChannel (G : Type) (capacity : Int) : Channel G :=
  { store := [], capacity := capacity, close := false }

/-- Control points of a thread executing `Channel.Send(v)`:
`start` = about to run the locked body, `waiting` = parked in
`cond.Wait()` inside the `for ch.store.Len() == ch.capacity` loop,
`done e` = returned with error `e` (`none` = success). -/
inductive SenderState (G : Type) where
  | start (v : G)
  | waiting (v : G)
  | done (e : Option String)
deriving DecidableEq, Repr

/-- One lock-held segment of `Channel.Send` (part_004 lines 5-18).
From `start`: the closed flag is checked once; then the wait-loop guard
`store.Len() == capacity`; if it holds the thread parks, otherwise it
appends and broadcasts.  From `waiting` (after a wake) only the loop
guard is re-checked - the source does not re-read `close` there.
The `Bool` component records whether the segment called `Broadcast`. -/
def sendStep {G : Type} (ch : Channel G) : SenderState G → Channel G × SenderState G × Bool
  | .start v =>
      if ch.close then
        (ch, .done (some "channel is already closed"), false)
      else if (ch.store.length : Int) = ch.capacity then
        (ch, .waiting v, false)
      else
        ({ ch with store := ch.store ++ [v] }, .done none, true)
  | .waiting v =>
      if (ch.store.length : Int) = ch.capacity then
        (ch, .waiting v, false)
      else
        ({ ch with store := ch.store ++ [v] }, .done none, true)
  | .done e => (ch, .done e, false)

/-- Control points of a thread executing `Channel.Receive()`:
`start` = about to run the locked body, `waiting` = at the
`for ch.store.Len() == 0` loop guard (parking when it holds),
`done m ok` = returned `(m, ok)`. -/
inductive ReceiverState (G : Type) where
  | start
  | waiting
  | done (m : G) (ok : Bool)
deriving DecidableEq, Repr

/-- One lock-held segment of `Channel.Receive` (part_004 lines 21-43).
From `start`: if closed, return the zero value and `ok = false` at
once; otherwise widen `capacity` by one and broadcast, then move to the
wait-loop guard.  From `waiting`: if the store is empty, park;
otherwise narrow `capacity` back, remove the front element, broadcast,
and return it with `ok = true`. -/
def recvStep {G : Type} [Inhabited G] (ch : Channel G) :
    ReceiverState G → Channel G × ReceiverState G × Bool
  | .start =>
      if ch.close then
        (ch, .done default false, false)
      else
        ({ ch with capacity := ch.capacity + 1 }, .waiting, true)
  | .waiting =>
      match ch.store with
      | [] => (ch, .waiting, false)
      | x :: rest =>
          ({ ch with capacity := ch.capacity - 1, store := rest }, .done x true, true)
  | .done m ok => (ch, .done m ok, false)

/-- `Channel.Close` (close.go lines 5-14): error if already closed,
otherwise set the flag and broadcast. -/
def closeCh {G : Type} (ch : Channel G) : Channel G × Option String × Bool :=
  if ch.close then
    (ch, some "close is already closed", false)
  else
    ({ ch with close := true }, none, true)

/-- Iterate the sender step function `n` times (the channel component
is threaded through; the broadcast flag is dropped). -/
def iterSend {G : Type} (ch : Channel G) (s : SenderState G) : Nat → Channel G × SenderState G
  | 0 => (ch, s)
  | n + 1 =>
      let r := sendStep ch s
      iterSend r.1 r.2.1 n

/-- `n` consecutive completed-or-attempted `Send v` calls, each one
taking the channel left by the previous step from its entry point. -/
def sendN {G : Type} (ch : Channel G) (v : G) : Nat → Channel G
  | 0 => ch
  | n + 1 => sendN (sendStep ch (.start v)).1 v n

/-! ## Topic broker (`Publisher`, channel/examples/pubsub)

The Go registry is `map[string][]chan string`.  Mailboxes (the
`make(chan string, 1)` subscriber channels) are identified by the
`Nat` id they receive at creation (`nextId`); identity comparison of Go
channels becomes equality of ids.  The registry is an association list
keyed by topic name, and `mailboxes` records the buffer and closed
flag of every registered mailbox. -/

structure Mailbox where
  buf : List String
  closed : Bool
deriving DecidableEq, Repr

structure Publisher where
  subscribers : List (String × List Nat)
  mailboxes : List (Nat × Mailbox)
  nextId : Nat
deriving DecidableEq, Repr

/-- `NewPublisher` (part_001): empty registry. -/
def NewPublisher : Publisher :=
  { subscribers := [], mailboxes := [], nextId := 0 }

/-- First-match read on the subscriber association list. -/
def lookupSubs (t : String) : List (String × List Nat) → Option (List Nat)
  | [] => none
  | e :: rest => if e.1 = t then some e.2 else lookupSubs t rest

/-- Go map read `p.subscribers[topic]`. -/
def lookupTopic (p : Publisher) (t : String) : Option (List Nat) :=
  lookupSubs t p.subscribers

/-- Go map write `p.subscribers[topic] = ids` (overwrite or insert). -/
def setTopic (subs : List (String × List Nat)) (t : String) (ids : List Nat) :
    List (String × List Nat) :=
  match subs with
  | [] => [(t, ids)]
  | e :: rest => if e.1 = t then (t, ids) :: rest else e :: setTopic rest t ids

/-- Go map delete `delete(p.subscribers, topic)`: drop every binding
with the given key. -/
def removeTopic : List (String × List Nat) → String →
    List (String × List Nat)
  | [], _ => []
  | e :: rest, t => if e.1 = t then removeTopic rest t else e :: removeTopic rest t

/-- First-match read on the mailbox table. -/
def lookupMb (id : Nat) : List (Nat × Mailbox) → Option Mailbox
  | [] => none
  | e :: rest => if e.1 = id then some e.2 else lookupMb id rest

/-- The registered mailbox with the given id. -/
def mbLookup (p : Publisher) (id : Nat) : Option Mailbox :=
  lookupMb id p.mailboxes

/-- `Publisher.CreateTopic` (topic.go): unconditionally installs an
empty subscriber list (overwriting any existing one). -/
def createTopic (p : Publisher) (t : String) : Publisher :=
  { p with subscribers := setTopic p.subscribers t [] }

/-- `Publisher.Subscribe` (subscribe.go): error if the topic is absent
(the channel the source allocates before the check is dropped,
unobservable); otherwise register a fresh empty open mailbox at the end
of the topic's list and return its id. -/
def subscribe (p : Publisher) (t : String) : Publisher × Option Nat × Option String :=
  match lookupTopic p t with
  | none => (p, none, some "topic not found")
  | some ids =>
      ({ p with
          subscribers := setTopic p.subscribers t (ids ++ [p.nextId]),
          mailboxes := p.mailboxes ++ [(p.nextId, { buf := [], closed := false })],
          nextId := p.nextId + 1 },
        some p.nextId, none)

/-- `ch <- message` on a capacity-1 Go channel: completes at once only
when the channel is open and its buffer is empty; `none` means the
send does not complete now (full buffer blocks; a closed channel never
accepts). -/
def mboxPut (m : Mailbox) (s : String) : Option Mailbox :=
  if m.closed then none
  else if m.buf.length < 1 then some { m with buf := m.buf ++ [s] } else none

/-- Deliver `s` to the mailbox with identity `id`. -/
def deliverOne (p : Publisher) (id : Nat) (s : String) : Option Publisher :=
  match mbLookup p id with
  | none => none
  | some m =>
      match mboxPut m s with
      | none => none
      | some m' =>
          some { p with
                  mailboxes := p.mailboxes.map fun e =>
                    if e.1 = id then (e.1, m') else e }

/-- The `for _, ch := range subscriber { ch <- message }` loop of
`Publisher.Publish`: delivery in subscriber-list order, left to
right. -/
def deliverAll (p : Publisher) (ids : List Nat) (s : String) : Option Publisher :=
  match ids with
  | [] => some p
  | id :: rest => (deliverOne p id s).bind fun p' => deliverAll p' rest s

/-- `Publisher.Publish` (publish.go lines 29-45): "topic not found" if
the topic is absent, otherwise send the message to every subscriber
mailbox in list order.  `none` = the call blocks (some mailbox full). -/
def publish (p : Publisher) (t : String) (s : String) :
    Option (Publisher × Option String) :=
  match lookupTopic p t with
  | none => some (p, some "topic not found")
  | some ids => (deliverAll p ids s).map fun p' => (p', none)

/-- `close(ch)` applied to the mailbox with identity `id`. -/
def closeOne (mbs : List (Nat × Mailbox)) (id : Nat) : List (Nat × Mailbox) :=
  mbs.map fun e => if e.1 = id then (e.1, { e.2 with closed := true }) else e

/-- The `for _, ch := range p.subscribers[topic] { close(ch) }` loop of
`Publisher.CloseTopic`. -/
def closeList (mbs : List (Nat × Mailbox)) : List Nat → List (Nat × Mailbox)
  | [] => mbs
  | id :: rest => closeList (closeOne mbs id) rest

/-- `Publisher.CloseTopic` (publish.go lines 70-87): "topic not found"
if absent; otherwise close every subscriber mailbox of the topic and
delete the topic from the registry. -/
def closeTopic (p : Publisher) (t : String) : Publisher × Option String :=
  match lookupTopic p t with
  | none => (p, some "topic not found")
  | some ids =>
      ({ p with
          mailboxes := closeList p.mailboxes ids,
          subscribers := removeTopic p.subscribers t }, none)

/-- Remove the first occurrence (the source removes the slice entry at
the index of the first channel-identity match). -/
def removeFirst : List Nat → Nat → List Nat
  | [], _ => []
  | x :: rest, id => if x = id then rest else x :: removeFirst rest id

/-- `Publisher.CloseSubscriber` (publish.go lines 105-127): "topic not
found" if the topic is absent; otherwise scan the subscriber list for
the given mailbox, close it and splice it out on the first match, or
return "subscriber not found". -/
def closeSubscriber (p : Publisher) (t : String) (id : Nat) :
    Publisher × Option String :=
  match lookupTopic p t with
  | none => (p, some "topic not found")
  | some ids =>
      if id ∈ ids then
        ({ p with
            mailboxes := closeOne p.mailboxes id,
            subscribers := setTopic p.subscribers t (removeFirst ids id) }, none)
      else (p, some "subscriber not found")

/-- `v, ok := <-ch` on a capacity-1 Go channel: a buffered message is
yielded first even after close; an empty closed channel yields
end-of-stream (`some none`); an empty open channel blocks (`none`). -/
def mboxReceive (m : Mailbox) : Option (Option (String × Mailbox))
  :=
  match m.buf with
  | s :: rest => some (some (s, { m with buf := rest }))
  | [] => if m.closed then some none else none

/-! ## State monitor (`Mutex[T]`, sync/mutex/custom_mutex)

The coordinator goroutine of `NewMutex` (constructor.go) owns `data`
and loops over `select { case <-m.read; case <-m.write; case <-m.stop:
return }`.  `running` is true while that loop is alive.  A request is
serviced only when the loop is still running; `none` means the
requesting caller blocks forever (nobody reads its channel). -/

structure MutexState (T : Type) where
  data : T
  running : Bool
deriving DecidableEq, Repr

/-- The three kinds of requests a caller can put to the coordinator.
`Mutex.Get` (get.go) issues `.get`; the `Mutex.Send` and `Mutex.Close`
wrappers are not under src/.  Modelled from the spec: `Send(v)` hands
the coordinator a write request carrying `v`, and `Close` signals the
coordinator to terminate its service loop. -/
inductive MReq (T : Type) where
  | get
  | send (v : T)
  | stop
deriving DecidableEq, Repr

/-- One service step of the coordinator loop (constructor.go lines
9-20): a read is answered with the current `data`, a write overwrites
`data`, a stop makes the loop return.  When the loop has returned
(`running = false`) no request is ever serviced. -/
def mService {T : Type} (m : MutexState T) (r : MReq T) :
    Option (MutexState T × Option T) :=
  if m.running then
    match r with
    | .get => some (m, some m.data)
    | .send v => some ({ m with data := v }, none)
    | .stop => some ({ m with running := false }, none)
  else none

/-- Feed a list of requests to the coordinator in order; a request the
coordinator never services leaves the state unchanged (its caller stays
blocked). -/
def mRun {T : Type} (m : MutexState T) : List (MReq T) → MutexState T
  | [] => m
  | r :: rest =>
      match mService m r with
      | some (m', _) => mRun m' rest
      | none => mRun m rest

/-! ## Lemmas -/

/-- Sender steps cannot leave the waiting point while the channel stays
full, and never inspect the closed flag there. -/
theorem iterSend_stuck {G : Type} (ch : Channel G) (v : G)
    (hf : (ch.store.length : Int) = ch.capacity) :
    ∀ n : Nat, iterSend ch (.waiting v) n = (ch, .waiting v) := by
  intro n
  induction n with
  | zero => rfl
  | succ n ih =>
      have hstep : sendStep ch (.waiting v) = (ch, .waiting v, false) := by
        simp [sendStep, hf]
      simp [iterSend, hstep, ih]

/-- Under a negative capacity the wait-loop guard of `Send` can never
hold, so every call appends one element. -/
theorem sendN_length {G : Type} (v : G) :
    ∀ (n : Nat) (ch : Channel G), ch.capacity < 0 → ch.close = false →
      (sendN ch v n).store.length = ch.store.length + n := by
  intro n
  induction n with
  | zero => intro ch _ _; rfl
  | succ n ih =>
      intro ch h1 h2
      have hne : ¬ ((ch.store.length : Int) = ch.capacity) := by
        have : (0 : Int) ≤ (ch.store.length : Int) := Int.natCast_nonneg _
        omega
      have hstep : (sendStep ch (.start v)).1 = { ch with store := ch.store ++ [v] } := by
        simp [sendStep, h2, hne]
      rw [sendN, hstep, ih { ch with store := ch.store ++ [v] } h1 h2]
      simp
      omega

/-- A coordinator whose loop has returned services nothing, so a
request trace leaves the state untouched. -/
theorem mRun_not_running {T : Type} (reqs : List (MReq T)) (m : MutexState T)
    (h : m.running = false) : mRun m reqs = m := by
  induction reqs with
  | nil => rfl
  | cons r rest ih => simp [mRun, mService, h, ih]

/-- Servicing read requests changes nothing: the coordinator replies
with `data` and keeps its state. -/
theorem mRun_gets {T : Type} (reqs : List (MReq T)) (m : MutexState T)
    (h : m.running = true) (hg : ∀ r ∈ reqs, r = MReq.get) : mRun m reqs = m := by
  induction reqs with
  | nil => rfl
  | cons r rest ih =>
      have hr : r = MReq.get := hg r (by simp)
      subst hr
      have : mRun m rest = m := ih (fun r hr => hg r (by simp [hr]))
      simp [mRun, mService, h, this]

/-- Replacing the mailbox at key `id` (as `deliverOne` does) changes
exactly that key's first-match lookup. -/
theorem lookupMb_map_update (l : List (Nat × Mailbox)) (id : Nat) (m' : Mailbox)
    (j : Nat) :
    lookupMb j (l.map fun e => if e.1 = id then (e.1, m') else e)
      = if j = id then (lookupMb j l).map (fun _ => m') else lookupMb j l := by
  induction l with
  | nil => simp [lookupMb]
  | cons e rest ih =>
      simp only [List.map]
      by_cases h1 : e.1 = id
      · by_cases h2 : e.1 = j
        · have hji : j = id := by rw [← h2, h1]
          simp [lookupMb, h1, h2, hji]
        · have hji : ¬ (j = id) := fun hh => h2 (by rw [h1, hh])
          have hij : ¬ (id = j) := fun hh => hji hh.symm
          simp [lookupMb, h1, h2, ih, hji, hij]
      · by_cases h2 : e.1 = j
        · have hji : ¬ (j = id) := fun hh => h1 (h2.trans hh)
          simp [lookupMb, h1, h2, hji]
        · simp [lookupMb, h1, h2, ih]

/-- `closeOne` closes exactly the mailbox with the given identity. -/
theorem lookupMb_closeOne (l : List (Nat × Mailbox)) (id : Nat) (j : Nat) :
    lookupMb j (closeOne l id)
      = if j = id then (lookupMb j l).map (fun m => { m with closed := true })
        else lookupMb j l := by
  induction l with
  | nil => simp [lookupMb, closeOne]
  | cons e rest ih =>
      simp only [closeOne, List.map] at *
      by_cases h1 : e.1 = id
      · by_cases h2 : e.1 = j
        · have hji : j = id := by rw [← h2, h1]
          simp [lookupMb, h1, h2, hji]
        · have hji : ¬ (j = id) := fun hh => h2 (by rw [h1, hh])
          have hij : ¬ (id = j) := fun hh => hji hh.symm
          simp [lookupMb, h1, h2, ih, hji, hij]
      · by_cases h2 : e.1 = j
        · have hji : ¬ (j = id) := fun hh => h1 (h2.trans hh)
          simp [lookupMb, h1, h2, hji]
        · simp [lookupMb, h1, h2, ih]

/-- `closeList` closes exactly the mailboxes whose identity is listed
(closing an already-closed mailbox again has no further effect). -/
theorem lookupMb_closeList :
    ∀ (ids : List Nat) (l : List (Nat × Mailbox)) (j : Nat),
      lookupMb j (closeList l ids)
        = if j ∈ ids then (lookupMb j l).map (fun m => { m with closed := true })
          else lookupMb j l := by
  intro ids
  induction ids with
  | nil => intro l j; simp [closeList]
  | cons id rest ih =>
      intro l j
      rw [closeList, ih, lookupMb_closeOne]
      by_cases hr : j ∈ rest <;> by_cases hi : j = id <;>
        cases ho : lookupMb j l <;> simp [hr, hi, ho]

/-- Deleting a topic removes its binding and no other. -/
theorem lookupSubs_removeTopic (subs : List (String × List Nat)) (t u : String) :
    lookupSubs u (removeTopic subs t)
      = if u = t then none else lookupSubs u subs := by
  induction subs with
  | nil => simp [removeTopic, lookupSubs]
  | cons e rest ih =>
      simp only [removeTopic]
      by_cases h1 : e.1 = t
      · rw [if_pos h1, ih]
        by_cases hut : u = t
        · simp [hut]
        · have heu : ¬ (e.1 = u) := fun hh => hut (hh.symm.trans h1)
          simp [hut, lookupSubs, heu]
      · rw [if_neg h1]
        by_cases h2 : e.1 = u
        · have hut : ¬ (u = t) := fun hh => h1 (h2.trans hh)
          simp [lookupSubs, h2, hut]
        · simp [lookupSubs, h2, ih]

/-- Writing a topic binding changes that key's lookup and no other. -/
theorem lookupSubs_setTopic (subs : List (String × List Nat)) (t u : String)
    (ids : List Nat) :
    lookupSubs u (setTopic subs t ids)
      = if u = t then some ids else lookupSubs u subs := by
  induction subs with
  | nil =>
      by_cases h : u = t
      · subst h
        rw [show setTopic [] u ids = [(u, ids)] from rfl]
        simp [lookupSubs]
      · have h' : ¬ (t = u) := fun hh => h hh.symm
        rw [show setTopic [] t ids = [(t, ids)] from rfl]
        simp [lookupSubs, h, h']
  | cons e rest ih =>
      simp only [setTopic]
      by_cases h1 : e.1 = t
      · by_cases h2 : e.1 = u
        · have hut : u = t := by rw [← h2, h1]
          subst hut
          rw [if_pos h1, if_pos rfl]
          simp [lookupSubs]
        · have hut : ¬ (u = t) := fun hh => h2 (by rw [h1, hh])
          have htu : ¬ (t = u) := fun hh => hut hh.symm
          rw [if_pos h1, if_neg hut]
          simp [lookupSubs, htu, h2]
      · by_cases h2 : e.1 = u
        · have hut : ¬ (u = t) := fun hh => h1 (h2.trans hh)
          rw [if_neg h1, if_neg hut]
          simp [lookupSubs, h2]
        · rw [if_neg h1]
          simp [lookupSubs, h2, ih]

/-- `deliverOne` touches only the mailbox table. -/
theorem deliverOne_subscribers (p p1 : Publisher) (id : Nat) (s : String)
    (h : deliverOne p id s = some p1) :
    p1.subscribers = p.subscribers ∧ p1.nextId = p.nextId := by
  unfold deliverOne at h
  cases hm : mbLookup p id with
  | none => simp [hm] at h
  | some m =>
      cases hp : mboxPut m s with
      | none => simp [hm, hp] at h
      | some m' =>
          simp only [hm, hp, Option.some.injEq] at h
          subst h
          exact ⟨rfl, rfl⟩

/-- A completed broadcast loop touches only the mailbox table. -/
theorem deliverAll_subscribers :
    ∀ (ids : List Nat) (p p' : Publisher) (s : String),
      deliverAll p ids s = some p' → p'.subscribers = p.subscribers := by
  intro ids
  induction ids with
  | nil => intro p p' s h; cases h; rfl
  | cons id rest ih =>
      intro p p' s h
      simp only [deliverAll] at h
      cases hd : deliverOne p id s with
      | none => simp [hd] at h
      | some p1 =>
          simp only [hd, Option.some_bind] at h
          exact (ih p1 p' s h).trans (deliverOne_subscribers p p1 id s hd).1

/-- Successful delivery to one empty open mailbox: the message is
buffered there and every other mailbox is untouched. -/
theorem deliverOne_spec (p : Publisher) (id : Nat) (s : String)
    (h : mbLookup p id = some { buf := [], closed := false }) :
    ∃ p', deliverOne p id s = some p'
      ∧ mbLookup p' id = some { buf := [s], closed := false }
      ∧ (∀ j, j ≠ id → mbLookup p' j = mbLookup p j)
      ∧ p'.subscribers = p.subscribers ∧ p'.nextId = p.nextId := by
  refine ⟨{ p with mailboxes := p.mailboxes.map fun e =>
      if e.1 = id then (e.1, { buf := [s], closed := false }) else e }, ?_, ?_, ?_, rfl, rfl⟩
  · unfold deliverOne
    simp only [h, mboxPut]
    rfl
  · simp only [mbLookup]
    rw [lookupMb_map_update]
    rw [if_pos rfl, show lookupMb id p.mailboxes = some { buf := [], closed := false } from h]
    rfl
  · intro j hj
    simp only [mbLookup]
    rw [lookupMb_map_update, if_neg hj]

/-- The broadcast loop of `Publish` over pairwise-distinct empty open
mailboxes: it completes, every listed mailbox holds exactly the
message, every other mailbox is untouched, and the registry fields are
unchanged. -/
theorem deliverAll_spec :
    ∀ (ids : List Nat) (p : Publisher) (s : String), ids.Nodup →
      (∀ id ∈ ids, mbLookup p id = some { buf := [], closed := false }) →
      ∃ p', deliverAll p ids s = some p'
        ∧ (∀ id ∈ ids, mbLookup p' id = some { buf := [s], closed := false })
        ∧ (∀ j, j ∉ ids → mbLookup p' j = mbLookup p j)
        ∧ p'.subscribers = p.subscribers ∧ p'.nextId = p.nextId := by
  intro ids
  induction ids with
  | nil =>
      intro p s _ _
      exact ⟨p, rfl, by simp, fun j _ => rfl, rfl, rfl⟩
  | cons id rest ih =>
      intro p s hnd hmb
      have hid : mbLookup p id = some { buf := [], closed := false } :=
        hmb id (by simp)
      obtain ⟨p1, hd1, hm1, ho1, hs1, hn1⟩ := deliverOne_spec p id s hid
      have hnotin : id ∉ rest := (List.nodup_cons.mp hnd).1
      have hrest : ∀ i ∈ rest, mbLookup p1 i = some { buf := [], closed := false } := by
        intro i hi
        have hne : i ≠ id := fun hh => hnotin (hh ▸ hi)
        rw [ho1 i hne]
        exact hmb i (by simp [hi])
      obtain ⟨p2, hd2, hm2, ho2, hs2, hn2⟩ :=
        ih p1 s (List.nodup_cons.mp hnd).2 hrest
      refine ⟨p2, ?_, ?_, ?_, hs2.trans hs1, hn2.trans hn1⟩
      · simp only [deliverAll, Option.bind_eq_bind, hd1, Option.some_bind]
        exact hd2
      · intro i hi
        rcases List.mem_cons.mp hi with hh | hh
        · subst hh
          rw [ho2 i hnotin, hm1]
        · exact hm2 i hh
      · intro j hj
        have hj1 : j ∉ rest := fun hh => hj (by simp [hh])
        have hj2 : j ≠ id := fun hh => hj (by simp [hh])
        rw [ho2 j hj1, ho1 j hj2]

/-- `CloseTopic` on an absent topic only reports the error. -/
theorem closeTopic_notfound (p : Publisher) (t : String)
    (h : lookupTopic p t = none) :
    closeTopic p t = (p, some "topic not found") := by
  simp [closeTopic, h]

/-- `Publish` on an absent topic only reports the error. -/
theorem publish_notfound (p : Publisher) (t s : String)
    (h : lookupTopic p t = none) :
    publish p t s = some (p, some "topic not found") := by
  simp [publish, h]

/-- `Subscribe` on an absent topic only reports the error. -/
theorem subscribe_notfound (p : Publisher) (t : String)
    (h : lookupTopic p t = none) :
    subscribe p t = (p, none, some "topic not found") := by
  simp [subscribe, h]

/-- A concrete broker: one topic "news" with one subscriber, mailbox
identity 0, empty and open. -/
def pubW : Publisher :=
  { subscribers := [("news", [0])],
    mailboxes := [(0, { buf := [], closed := false })],
    nextId := 1 }

/-- Like `pubW` but with a message "x" still buffered in the
subscriber's mailbox. -/
def pubX : Publisher :=
  { subscribers := [("news", [0])],
    mailboxes := [(0, { buf := ["x"], closed := false })],
    nextId := 1 }

/-! ## Claims about the bounded queue -/

/-- Claim C1, as stated, is false at a concrete input: a sender of "b"
parked in the wait loop of a full capacity-1 queue that has been closed
(store ["a"], closed flag set) is woken by the close broadcast, but its
re-check reads only `store.Len() == capacity`, so it parks again: the
step returns it to the waiting point instead of the "closed" error, and
ten further wake-ups leave it waiting still. -/
theorem C1_counterexample :
    sendStep ({ store := ["a"], capacity := 1, close := true } : Channel String)
        (.waiting "b")
      = ({ store := ["a"], capacity := 1, close := true }, .waiting "b", false)
    ∧ (iterSend ({ store := ["a"], capacity := 1, close := true } : Channel String)
        (.waiting "b") 10).2 ≠ .done (some "channel is already closed")
    ∧ (iterSend ({ store := ["a"], capacity := 1, close := true } : Channel String)
        (.waiting "b") 10).2 = .waiting "b" :=
  ⟨rfl, by decide, rfl⟩

/-- Claim C1 (amended): when `Close()` is invoked while a `Send(v)` is
parked on a full queue, the woken sender re-checks only
`store.Len() == capacity` and parks again; since on a closed queue no
operation changes `store` or `capacity` (`Receive` returns immediately,
a fresh `Send` fails at entry, another `Close` fails), the blocked send
never returns - it neither observes the closure nor yields the "closed"
error. -/
theorem C1_amended {G : Type} [Inhabited G] (ch : Channel G) (v : G)
    (hc : ch.close = true) (hf : (ch.store.length : Int) = ch.capacity) :
    (∀ n : Nat, iterSend ch (.waiting v) n = (ch, .waiting v))
    ∧ recvStep ch .start = (ch, .done (default : G) false, false)
    ∧ sendStep ch (.start v) = (ch, .done (some "channel is already closed"), false)
    ∧ closeCh ch = (ch, some "close is already closed", false) :=
  ⟨iterSend_stuck ch v hf, by simp [recvStep, hc], by simp [sendStep, hc],
    by simp [closeCh, hc]⟩

/-- Witness for C1_amended at the closed full capacity-1 queue. -/
theorem C1_amended_witness :
    (({ store := ["a"], capacity := 1, close := true } : Channel String)).close = true
    ∧ ((( ["a"] : List String).length : Int) = 1)
    ∧ iterSend ({ store := ["a"], capacity := 1, close := true } : Channel String)
        (.waiting "b") 3
      = ({ store := ["a"], capacity := 1, close := true }, .waiting "b") :=
  ⟨rfl, by decide,
    (C1_amended ({ store := ["a"], capacity := 1, close := true } : Channel String)
      "b" rfl (by decide)).1 3⟩

/-- Claim C3: on a queue that is not closed, `Receive` first widens
`capacity` by one and broadcasts, then sits at the wait loop while the
store is empty, and once an item is present narrows `capacity` back,
removes the front item, broadcasts, and returns it with `ok = true`;
when an item was already present, the two steps restore `capacity` to
its entry value. -/
theorem C3_receive_protocol {G : Type} [Inhabited G] (ch : Channel G)
    (h : ch.close = false) :
    recvStep ch .start = ({ ch with capacity := ch.capacity + 1 }, .waiting, true)
    ∧ (∀ ch' : Channel G, ch'.store = [] →
        recvStep ch' .waiting = (ch', .waiting, false))
    ∧ (∀ (ch' : Channel G) (x : G) (rest : List G), ch'.store = x :: rest →
        recvStep ch' .waiting
          = ({ ch' with capacity := ch'.capacity - 1, store := rest },
              .done x true, true))
    ∧ (∀ (x : G) (rest : List G), ch.store = x :: rest →
        recvStep (recvStep ch .start).1 (recvStep ch .start).2.1
          = ({ ch with store := rest }, .done x true, true)) := by
  refine ⟨by simp [recvStep, h], ?_, ?_, ?_⟩
  · intro ch' h'
    simp [recvStep, h']
  · intro ch' x rest h'
    simp [recvStep, h']
  · intro x rest h'
    simp [recvStep, h, h']

/-- Witness for C3_receive_protocol: store [5], capacity 3, open. -/
theorem C3_receive_protocol_witness :
    (({ store := [5], capacity := 3, close := false } : Channel Nat)).close = false
    ∧ recvStep ({ store := [5], capacity := 3, close := false } : Channel Nat) .start
      = ({ store := [5], capacity := 4, close := false }, .waiting, true) :=
  ⟨rfl,
    (C3_receive_protocol ({ store := [5], capacity := 3, close := false } : Channel Nat)
      rfl).1⟩

/-- Claim C4: `Receive` on a closed queue returns the zero value and
`ok = false` in a single step, leaving store and capacity untouched,
however many items remain. -/
theorem C4_receive_closed {G : Type} [Inhabited G] (ch : Channel G)
    (h : ch.close = true) :
    recvStep ch .start = (ch, .done (default : G) false, false) := by
  simp [recvStep, h]

/-- Witness for C4_receive_closed on a closed queue still holding two
items. -/
theorem C4_receive_closed_witness :
    (({ store := [1, 2], capacity := 2, close := true } : Channel Nat)).close = true
    ∧ recvStep ({ store := [1, 2], capacity := 2, close := true } : Channel Nat) .start
      = ({ store := [1, 2], capacity := 2, close := true }, .done 0 false, false) :=
  ⟨rfl, C4_receive_closed ({ store := [1, 2], capacity := 2, close := true } : Channel Nat) rfl⟩

/-- Claim C9: closing an open queue sets the flag, broadcasts and
returns no error; closing a closed queue returns the "already closed"
error and leaves the whole state (store, capacity, flag) unchanged. -/
theorem C9_close_semantics {G : Type} (ch₁ ch₂ : Channel G)
    (h₁ : ch₁.close = false) (h₂ : ch₂.close = true) :
    closeCh ch₁ = ({ ch₁ with close := true }, none, true)
    ∧ closeCh ch₂ = (ch₂, some "close is already closed", false) := by
  constructor
  · simp [closeCh, h₁]
  · simp [closeCh, h₂]

/-- Witness for C9_close_semantics. -/
theorem C9_close_semantics_witness :
    (({ store := [], capacity := 0, close := false } : Channel Nat)).close = false
    ∧ (({ store := [5], capacity := 1, close := true } : Channel Nat)).close = true
    ∧ closeCh ({ store := [], capacity := 0, close := false } : Channel Nat)
      = ({ store := [], capacity := 0, close := true }, none, true)
    ∧ closeCh ({ store := [5], capacity := 1, close := true } : Channel Nat)
      = ({ store := [5], capacity := 1, close := true },
          some "close is already closed", false) := by
  refine ⟨rfl, rfl, ?_, ?_⟩
  · exact (C9_close_semantics ({ store := [], capacity := 0, close := false } : Channel Nat)
      ({ store := [5], capacity := 1, close := true } : Channel Nat) rfl rfl).1
  · exact (C9_close_semantics ({ store := [], capacity := 0, close := false } : Channel Nat)
      ({ store := [5], capacity := 1, close := true } : Channel Nat) rfl rfl).2

/-- Claim C10: the constructor installs any capacity unchecked; on an
open queue with negative capacity `Send` never waits (the store length,
a natural number, never equals the negative capacity) and appends at
once with success, the store grows without bound, and the
`0 <= items.length <= capacity` invariant fails. -/
theorem C10_negative_capacity {G : Type} (c : Int) (ch : Channel G) (v : G)
    (hc : c < 0) (h1 : ch.capacity < 0) (h2 : ch.close = false) :
    NewChannel G c = { store := [], capacity := c, close := false }
    ∧ sendStep ch (.start v) = ({ ch with store := ch.store ++ [v] }, .done none, true)
    ∧ (∀ n : Nat, (sendN (NewChannel G c) v n).store.length = n)
    ∧ ¬ (0 ≤ (ch.store.length : Int) ∧ (ch.store.length : Int) ≤ ch.capacity) := by
  have hge : (0 : Int) ≤ (ch.store.length : Int) := Int.natCast_nonneg _
  have hne : ¬ ((ch.store.length : Int) = ch.capacity) := by omega
  refine ⟨rfl, by simp [sendStep, h2, hne], ?_, ?_⟩
  · intro n
    simpa [NewChannel] using sendN_length v n (NewChannel G c) hc rfl
  · intro hinv
    omega

/-- Witness for C10_negative_capacity at capacity -1. -/
theorem C10_negative_capacity_witness :
    ((-1 : Int) < 0)
    ∧ ((NewChannel Nat (-1)).capacity < 0)
    ∧ ((NewChannel Nat (-1)).close = false)
    ∧ (sendN (NewChannel Nat (-1)) 7 4).store.length = 4 :=
  ⟨by decide, by decide, rfl,
    (C10_negative_capacity (-1) (NewChannel Nat (-1)) 7 (by decide) (by decide) rfl).2.2.1 4⟩

/-! ## Claims about the state monitor -/

/-- Claim C5: `Close` on a live monitor makes the coordinator loop
return; from then on no request trace is ever serviced (the state
never changes) and a subsequent `Get` or `Send(v)` is never answered -
its caller blocks permanently. -/
theorem C5_blocked_after_close {T : Type} (m : MutexState T) (v : T)
    (reqs : List (MReq T)) (h : m.running = true) :
    mService m MReq.stop = some ({ m with running := false }, none)
    ∧ mRun { m with running := false } reqs = { m with running := false }
    ∧ mService (mRun { m with running := false } reqs) MReq.get = none
    ∧ mService (mRun { m with running := false } reqs) (MReq.send v) = none := by
  have hrun : mRun { m with running := false } reqs = { m with running := false } :=
    mRun_not_running reqs _ rfl
  refine ⟨by simp [mService, h], hrun, ?_, ?_⟩ <;> simp [hrun, mService]

/-- Witness for C5_blocked_after_close. -/
theorem C5_blocked_after_close_witness :
    (({ data := 0, running := true } : MutexState Nat)).running = true
    ∧ mService (mRun ({ data := 0, running := false } : MutexState Nat)
        [MReq.get, MReq.send 2]) MReq.get = none :=
  ⟨rfl,
    (C5_blocked_after_close ({ data := 0, running := true } : MutexState Nat) 1
      [MReq.get, MReq.send 2] rfl).2.2.1⟩

/-- Claim C6: on a live monitor the coordinator services `Send(v)` by
overwriting `data` with `v`; after any further serviced requests that
are all reads, a `Get` is answered with exactly `v`. -/
theorem C6_get_after_send {T : Type} (m : MutexState T) (v : T)
    (reqs : List (MReq T)) (h : m.running = true)
    (hg : ∀ r ∈ reqs, r = MReq.get) :
    mService m (MReq.send v) = some ({ m with data := v }, none)
    ∧ mService (mRun { m with data := v } reqs) MReq.get
      = some (mRun { m with data := v } reqs, some v) := by
  have hrun : mRun { m with data := v } reqs = { m with data := v } :=
    mRun_gets reqs _ h hg
  refine ⟨by simp [mService, h], ?_⟩
  rw [hrun]
  simp [mService, h]

/-- Witness for C6_get_after_send: send 42, two reads in between, the
next read answers 42. -/
theorem C6_get_after_send_witness :
    (({ data := 0, running := true } : MutexState Nat)).running = true
    ∧ (∀ r ∈ ([MReq.get, MReq.get] : List (MReq Nat)), r = MReq.get)
    ∧ mService (mRun ({ data := 42, running := true } : MutexState Nat)
        [MReq.get, MReq.get]) MReq.get
      = some (mRun ({ data := 42, running := true } : MutexState Nat)
          [MReq.get, MReq.get], some 42) :=
  ⟨rfl, by decide,
    (C6_get_after_send ({ data := 0, running := true } : MutexState Nat) 42
      [MReq.get, MReq.get] rfl (by decide)).2⟩

/-! ## Claims about the topic broker -/

/-- Claim C2, as stated, is false at a concrete input: on a broker
whose topic "news" has subscriber mailbox 0 (open), `CreateTopic
"news"` overwrites the subscriber list with an empty one - mailbox 0
is removed from the topic's list by the operation, yet its mailbox is
left open (`closed = false`). -/
theorem C2_counterexample :
    lookupTopic pubW "news" = some [0]
    ∧ createTopic pubW "news"
      = { subscribers := [("news", [])],
          mailboxes := [(0, { buf := [], closed := false })], nextId := 1 }
    ∧ lookupTopic (createTopic pubW "news") "news" = some []
    ∧ mbLookup (createTopic pubW "news") 0 = some { buf := [], closed := false } :=
  ⟨rfl, rfl, rfl, rfl⟩

/-- Claim C2 (amended): `CloseTopic` and `CloseSubscriber` close every
mailbox they remove, `Subscribe` only appends to a topic's list, and a
completed `Publish` leaves the registry untouched; but `CreateTopic` on
an existing topic replaces its subscriber list with an empty one
without closing the removed mailboxes, so a mailbox can be unregistered
while still open. -/
theorem C2_amended (p : Publisher) (t s : String) (ids : List Nat) (id : Nat)
    (hids : lookupTopic p t = some ids) (hid : id ∈ ids) :
    (∀ i ∈ ids, mbLookup (closeTopic p t).1 i
        = (mbLookup p i).map (fun m => { m with closed := true }))
    ∧ closeSubscriber p t id
        = ({ p with
              mailboxes := closeOne p.mailboxes id,
              subscribers := setTopic p.subscribers t (removeFirst ids id) }, none)
    ∧ mbLookup (closeSubscriber p t id).1 id
        = (mbLookup p id).map (fun m => { m with closed := true })
    ∧ (∀ u, lookupTopic (subscribe p t).1 u
        = if u = t then some (ids ++ [p.nextId]) else lookupTopic p u)
    ∧ (∀ (p' : Publisher) (e : Option String),
        publish p t s = some (p', e) → p'.subscribers = p.subscribers) := by
  have hcs : closeSubscriber p t id
      = ({ p with
            mailboxes := closeOne p.mailboxes id,
            subscribers := setTopic p.subscribers t (removeFirst ids id) }, none) := by
    simp [closeSubscriber, hids, hid]
  refine ⟨?_, hcs, ?_, ?_, ?_⟩
  · intro i hi
    simp only [closeTopic, hids, mbLookup]
    rw [lookupMb_closeList, if_pos hi]
  · rw [hcs]
    simp only [mbLookup]
    rw [lookupMb_closeOne, if_pos rfl]
  · intro u
    simp only [subscribe, hids]
    simp only [lookupTopic]
    rw [lookupSubs_setTopic]
  · intro p' e hp
    simp only [publish, hids] at hp
    cases hda : deliverAll p ids s with
    | none => rw [hda] at hp; cases hp
    | some q =>
        rw [hda] at hp
        simp only [Option.map_some', Option.some.injEq, Prod.mk.injEq] at hp
        rw [← hp.1]
        exact deliverAll_subscribers ids p q s hda

/-- Witness for C2_amended: closing the topic "news" closes its one
removed mailbox. -/
theorem C2_amended_witness :
    lookupTopic pubW "news" = some [0]
    ∧ (0 ∈ ([0] : List Nat))
    ∧ mbLookup (closeTopic pubW "news").1 0
      = (mbLookup pubW 0).map (fun m => { m with closed := true }) :=
  ⟨rfl, by decide, (C2_amended pubW "news" "z" [0] 0 rfl (by decide)).1 0 (by decide)⟩

/-- Claim C7: publishing to an absent topic reports "topic not found"
and touches no mailbox (the broker is returned unchanged); publishing
to a present topic whose (pairwise-distinct) subscriber mailboxes are
empty and open buffers the message in every one of them, in list
order, touches no other mailbox, and returns success. -/
theorem C7_publish (p q : Publisher) (t s : String) (ids : List Nat)
    (hq : lookupTopic q t = none) (hids : lookupTopic p t = some ids)
    (hnd : ids.Nodup)
    (hmb : ∀ id ∈ ids, mbLookup p id = some { buf := [], closed := false }) :
    publish q t s = some (q, some "topic not found")
    ∧ ∃ p', publish p t s = some (p', none)
        ∧ (∀ id ∈ ids, mbLookup p' id = some { buf := [s], closed := false })
        ∧ (∀ j, j ∉ ids → mbLookup p' j = mbLookup p j)
        ∧ p'.subscribers = p.subscribers := by
  constructor
  · simp [publish, hq]
  · obtain ⟨p', hd, hm, ho, hs, _⟩ := deliverAll_spec ids p s hnd hmb
    exact ⟨p', by simp [publish, hids, hd], hm, ho, hs⟩

/-- Witness for C7_publish: an empty broker has no topic "news"
(Scenario C), and on `pubW` the publish buffers "hi" in mailbox 0. -/
theorem C7_publish_witness :
    lookupTopic NewPublisher "news" = none
    ∧ lookupTopic pubW "news" = some [0]
    ∧ ([0] : List Nat).Nodup
    ∧ (∀ id ∈ ([0] : List Nat), mbLookup pubW id = some { buf := [], closed := false })
    ∧ publish NewPublisher "news" "hi" = some (NewPublisher, some "topic not found")
    ∧ ∃ p', publish pubW "news" "hi" = some (p', none)
        ∧ (∀ id ∈ ([0] : List Nat), mbLookup p' id = some { buf := ["hi"], closed := false })
        ∧ (∀ j, j ∉ ([0] : List Nat) → mbLookup p' j = mbLookup pubW j)
        ∧ p'.subscribers = pubW.subscribers :=
  ⟨rfl, rfl, by decide, by decide,
    (C7_publish pubW NewPublisher "news" "hi" [0] rfl rfl (by decide) (by decide)).1,
    (C7_publish pubW NewPublisher "news" "hi" [0] rfl rfl (by decide) (by decide)).2⟩

/-- Claim C8, as stated, is false at a concrete input: on a broker
whose topic "news" has one subscriber with message "x" still buffered,
`CloseTopic "news"` closes the mailbox, but the subscriber's next
receive yields the buffered "x" (Go receives buffered values from a
closed channel first), not end-of-stream. -/
theorem C8_counterexample :
    closeTopic pubX "news"
      = ({ subscribers := [],
           mailboxes := [(0, { buf := ["x"], closed := true })], nextId := 1 }, none)
    ∧ mbLookup (closeTopic pubX "news").1 0 = some { buf := ["x"], closed := true }
    ∧ mboxReceive { buf := ["x"], closed := true }
      = some (some ("x", { buf := [], closed := true }))
    ∧ mboxReceive { buf := ["x"], closed := true } ≠ some none :=
  ⟨rfl, rfl, rfl, by decide⟩

/-- Claim C8 (amended): `CloseTopic` on an existing topic succeeds,
closes every subscriber mailbox of the topic (so a subscriber whose
mailbox is already drained observes end-of-stream on its next receive;
buffered messages are still delivered first), and removes the topic
from the registry, after which `Publish`, `Subscribe`, and `CloseTopic`
on that name all return "topic not found". -/
theorem C8_amended (p : Publisher) (t s : String) (ids : List Nat)
    (hids : lookupTopic p t = some ids) :
    (closeTopic p t).2 = none
    ∧ (∀ id ∈ ids, mbLookup (closeTopic p t).1 id
        = (mbLookup p id).map (fun m => { m with closed := true }))
    ∧ lookupTopic (closeTopic p t).1 t = none
    ∧ publish (closeTopic p t).1 t s
      = some ((closeTopic p t).1, some "topic not found")
    ∧ subscribe (closeTopic p t).1 t
      = ((closeTopic p t).1, none, some "topic not found")
    ∧ closeTopic (closeTopic p t).1 t = ((closeTopic p t).1, some "topic not found")
    ∧ (∀ id ∈ ids, mbLookup p id = some { buf := [], closed := false } →
        mbLookup (closeTopic p t).1 id = some { buf := [], closed := true }
        ∧ mboxReceive { buf := [], closed := true } = some none) := by
  have hmb : ∀ id ∈ ids, mbLookup (closeTopic p t).1 id
      = (mbLookup p id).map (fun m => { m with closed := true }) := by
    intro i hi
    simp only [closeTopic, hids, mbLookup]
    rw [lookupMb_closeList, if_pos hi]
  have hlt : lookupTopic (closeTopic p t).1 t = none := by
    simp only [closeTopic, hids]
    simp only [lookupTopic]
    rw [lookupSubs_removeTopic, if_pos rfl]
  refine ⟨by simp [closeTopic, hids], hmb, hlt, publish_notfound _ _ s hlt,
    subscribe_notfound _ _ hlt, closeTopic_notfound _ _ hlt, ?_⟩
  intro i hi hempty
  exact ⟨by rw [hmb i hi, hempty]; rfl, rfl⟩

/-- Witness for C8_amended on the one-subscriber broker `pubW`. -/
theorem C8_amended_witness :
    lookupTopic pubW "news" = some [0]
    ∧ lookupTopic (closeTopic pubW "news").1 "news" = none :=
  ⟨rfl, (C8_amended pubW "news" "y" [0] rfl).2.2.1⟩

end GoConc
